import Mathlib

/-!
Shallow embedding of the `Mpd` status-bar block from `src/blocks/mpd.rs`.

The remote MPD connection is modelled as an environment of query results
(`Env` for a timer-driven update cycle, `ClickEnv` for an event-handler
invocation).  The effects the Rust code performs on the connection and the
widget are recorded as a trace of `Act`s, and a Rust panic (a failed
`.unwrap()`) is modelled as the `Except` error `Panicked.unwrapFailed`.
-/

/-- Playback state of the remote player (`mpd::status::State`). -/
inductive PState
  | Play
  | Pause
  | Stop
deriving DecidableEq

/-- The fields of `mpd::Status` that `mpd.rs` reads.  `elapsed` is the
elapsed time in whole seconds (the code only ever calls `num_seconds()`). -/
structure Status where
  repeat_ : Bool
  random : Bool
  single : Bool
  consume : Bool
  state : PState
  elapsed : Option Nat
  volume : Int
deriving DecidableEq

/-- The fields of `mpd::Song` that `mpd.rs` reads.  `duration` is in whole
seconds; `tags` is the song's tag map. -/
structure Song where
  title : Option String
  file : String
  tags : List (String × String)
  duration : Option Nat
deriving DecidableEq

/-- Effects performed on the connection and the widget during one call. -/
inductive Act
  | queryStatus
  | closeConn
  | connectAttempt
  | setConn
  | querySong (n : Nat)
  | setText (s : String)
  | prev
  | next
  | togglePause
  | setVolume (v : Int)
deriving DecidableEq

/-- A Rust panic (a failed `.unwrap()`), which aborts the process. -/
inductive Panicked
  | unwrapFailed
deriving DecidableEq

/-- A recoverable error returned through `Result` via `block_error`. -/
inductive BlockError
  | mk
deriving DecidableEq

/-- Mouse buttons of `crate::input::MouseButton` used by `Mpd::click`. -/
inductive MouseButton
  | Left
  | Middle
  | Right
  | WheelUp
  | WheelDown
  | Other
deriving DecidableEq

/-- The fields of `crate::input::I3BarEvent` that `Mpd::click` reads. -/
structure I3BarEvent where
  name : Option String
  button : MouseButton
deriving DecidableEq

/-- The block configuration `MpdConfig`.  The interval is in whole seconds;
the format template is kept as its source string. -/
structure MpdConfig where
  interval : Nat
  format : String
  ip : String
  color_overrides : Option (List (String × String))
deriving DecidableEq

def MpdConfig.default_interval : Nat := 1

def MpdConfig.default_format : String :=
  "{artist} - {title} [{playback_info}]{repeat}{random}{single}{consume}"

def MpdConfig.default_ip : String := "127.0.0.1:6600"

def MpdConfig.default_color_overrides : Option (List (String × String)) := none

/-- The widget state `Mpd`.  The live connection handle (`mpd_conn`) is
modelled externally by the query environments; `config` and
`tx_update_request` are opaque and unused by the block's logic. -/
structure Mpd where
  text : String
  id : String
  update_interval : Nat
  ip : String
  format : String
deriving DecidableEq

/-- Environment of one update cycle: the result of the status probe, the
result of the reconnect attempt (made only when the probe fails), and the
results of the successive `currentsong()` calls. -/
structure Env where
  status0 : Except Unit Status
  reconnect : Except Unit Unit
  songs : Nat → Except Unit (Option Song)

/-- Environment of one click invocation: results of the transport commands,
of the `status()` call made by the wheel branches, of `volume(..)`, and the
environment of the `update()` pass run at the end of `click`. -/
structure ClickEnv where
  prevRes : Except Unit Unit
  nextRes : Except Unit Unit
  toggleRes : Except Unit Unit
  statusRes : Except Unit Status
  setVolumeRes : Except Unit Unit
  updateEnv : Env

/-- `if status.repeat { "R" } else { "" }` -/
def repeatFlag (b : Bool) : String := if b then "R" else ""

/-- `if status.random { "Z" } else { "" }` -/
def randomFlag (b : Bool) : String := if b then "Z" else ""

/-- `if status.single { "S" } else { "" }` -/
def singleFlag (b : Bool) : String := if b then "S" else ""

/-- `if status.consume { "C" } else { "" }` -/
def consumeFlag (b : Bool) : String := if b then "C" else ""

/-- Zero-padding of Rust's `format!("{:02}", n)`: pad with `'0'` on the left
to a minimum width of two. -/
def natPad2 (n : Nat) : String :=
  let s := Nat.repr n
  String.mk (List.replicate (2 - s.length) '0') ++ s

/-- `format!("{}:{:02}", d / 60, d % 60)` for a duration of `d` whole
seconds. -/
def formatMinSec (d : Nat) : String :=
  Nat.repr (d / 60) ++ ":" ++ natPad2 (d % 60)

/-- The `title` binding of `Mpd::update`: the song's title, else its `file`,
else the empty string when no song is current. -/
def titleOf : Option Song → String
  | some song =>
    match song.title with
    | some t => t
    | none => song.file
  | none => ""

/-- `song.tags.get("Artist")`: first value bound to the key in the tag map. -/
def lookupTag (tags : List (String × String)) (key : String) : Option String :=
  match tags with
  | [] => none
  | kv :: rest => if kv.1 = key then some kv.2 else lookupTag rest key

/-- The `artist` binding of `Mpd::update`: the "Artist" tag, else the literal
`"unknown artist"`, else the empty string when no song is current. -/
def artistOf : Option Song → String
  | some song =>
    match lookupTag song.tags "Artist" with
    | some a => a
    | none => "unknown artist"
  | none => ""

/-- The `elapsed` binding of `Mpd::update`. -/
def elapsedOf : Option Nat → String
  | some te => formatMinSec te
  | none => ""

/-- The `length` binding of `Mpd::update`. -/
def lengthOf : Option Song → String
  | some song =>
    match song.duration with
    | some sl => formatMinSec sl
    | none => ""
  | none => ""

/-- The `playback_status` binding of `Mpd::update`. -/
def playbackOf (state : PState) (elapsed length : String) : String :=
  match state with
  | .Play => elapsed ++ "/" ++ length
  | .Pause => "paused"
  | _ => "stopped"

/-- The `format_values` map of `Mpd::update`, in the order of the `map!`
literal.  `s0`, `s1`, `s2` are the results of the first, second and third
`currentsong()` call: the first feeds `title`, the second `artist`, the
third `length`. -/
def formatVals (st : Status) (s0 s1 s2 : Option Song) : List (String × String) :=
  [("{repeat}", repeatFlag st.repeat_),
   ("{random}", randomFlag st.random),
   ("{single}", singleFlag st.single),
   ("{consume}", consumeFlag st.consume),
   ("{artist}", artistOf s1),
   ("{title}", titleOf s0),
   ("{elapsed}", elapsedOf st.elapsed),
   ("{length}", lengthOf s2),
   ("{playback_info}", playbackOf st.state (elapsedOf st.elapsed) (lengthOf s2)),
   ("{volume}", toString st.volume)]

/-- `listStarts s p` : does list `s` start with list `p`? -/
def listStarts : List Char → List Char → Bool
  | _, [] => true
  | [], _ :: _ => false
  | c :: cs, p :: ps => c = p && listStarts cs ps

/-- Fuel-bounded replacement of every occurrence of `pat` in `s` by `rep`. -/
def replaceAllAux : Nat → List Char → List Char → List Char → List Char
  | 0, s, _, _ => s
  | _ + 1, [], _, _ => []
  | fuel + 1, c :: rest, pat, rep =>
    if listStarts (c :: rest) pat && !pat.isEmpty then
      rep ++ replaceAllAux fuel ((c :: rest).drop pat.length) pat rep
    else
      c :: replaceAllAux fuel rest pat rep

/-- Replace every occurrence of `pat` in `s` by `rep`. -/
def substString (s pat rep : String) : String :=
  String.mk (replaceAllAux s.data.length s.data pat.data rep.data)

/-- Modelled from the spec: the external template engine
(`FormatTemplate::render_static_str`, defined in `src/util.rs`, which is not
part of the shown source) substitutes every named placeholder of the
template by its value and leaves unrecognized placeholders as-is. -/
def renderTemplate (tmpl : String) (vals : List (String × String)) : String :=
  vals.foldl (fun acc kv => substString acc kv.1 kv.2) tmpl

/-- `Mpd::update`, line by line: probe `status()`; on failure close the
connection, attempt one reconnect (swap the handle on success, set the
`"reconnecting..."` text on failure) and return the interval; on success
derive the fields — three separate `currentsong()` calls, each
`.unwrap()`ed — render the template and set the text.  Returns the trace of
actions and either a panic or the new state plus the returned interval. -/
def Mpd.update (m : Mpd) (env : Env) : List Act × Except Panicked (Mpd × Nat) :=
  match env.status0 with
  | .error _ =>
    match env.reconnect with
    | .ok _ =>
      ([.queryStatus, .closeConn, .connectAttempt, .setConn],
       .ok (m, m.update_interval))
    | .error _ =>
      ([.queryStatus, .closeConn, .connectAttempt, .setText "reconnecting..."],
       .ok ({ m with text := "reconnecting..." }, m.update_interval))
  | .ok status =>
    match env.songs 0 with
    | .error _ => ([.queryStatus, .querySong 0], .error .unwrapFailed)
    | .ok s0 =>
      match env.songs 1 with
      | .error _ => ([.queryStatus, .querySong 0, .querySong 1], .error .unwrapFailed)
      | .ok s1 =>
        match env.songs 2 with
        | .error _ =>
          ([.queryStatus, .querySong 0, .querySong 1, .querySong 2], .error .unwrapFailed)
        | .ok s2 =>
          let rendered := renderTemplate m.format (formatVals status s0 s1 s2)
          ([.queryStatus, .querySong 0, .querySong 1, .querySong 2, .setText rendered],
           .ok ({ m with text := rendered }, m.update_interval))

/-- The `self.update().block_error(..)?; Ok(())` tail of `Mpd::click`. -/
def runUpdateAfter (m : Mpd) (env : ClickEnv) :
    List Act × Except Panicked (Except BlockError Mpd) :=
  match m.update env.updateEnv with
  | (tr, .error p) => (tr, .error p)
  | (tr, .ok (m', _)) => (tr, .ok (.ok m'))

/-- `Mpd::click`: filter by `event.name` against `self.id`; map the button
to a command (each failure is returned through `?` as a `BlockError` before
`update` runs; the wheel branches `.unwrap()` a fresh `status()` query
first); then run `self.update()`. -/
def Mpd.click (m : Mpd) (env : ClickEnv) (event : I3BarEvent) :
    List Act × Except Panicked (Except BlockError Mpd) :=
  match event.name with
  | none => runUpdateAfter m env
  | some nm =>
    if nm = m.id then
      match event.button with
      | .Left =>
        match env.prevRes with
        | .error _ => ([.prev], .ok (.error .mk))
        | .ok _ =>
          match runUpdateAfter m env with
          | (tr, r) => (.prev :: tr, r)
      | .Middle =>
        match env.toggleRes with
        | .error _ => ([.togglePause], .ok (.error .mk))
        | .ok _ =>
          match runUpdateAfter m env with
          | (tr, r) => (.togglePause :: tr, r)
      | .Right =>
        match env.nextRes with
        | .error _ => ([.next], .ok (.error .mk))
        | .ok _ =>
          match runUpdateAfter m env with
          | (tr, r) => (.next :: tr, r)
      | .WheelUp =>
        match env.statusRes with
        | .error _ => ([.queryStatus], .error .unwrapFailed)
        | .ok st =>
          match env.setVolumeRes with
          | .error _ =>
            ([.queryStatus, .setVolume (min 100 (st.volume + 5))], .ok (.error .mk))
          | .ok _ =>
            match runUpdateAfter m env with
            | (tr, r) => (.queryStatus :: .setVolume (min 100 (st.volume + 5)) :: tr, r)
      | .WheelDown =>
        match env.statusRes with
        | .error _ => ([.queryStatus], .error .unwrapFailed)
        | .ok st =>
          match env.setVolumeRes with
          | .error _ =>
            ([.queryStatus, .setVolume (max 0 (st.volume - 5))], .ok (.error .mk))
          | .ok _ =>
            match runUpdateAfter m env with
            | (tr, r) => (.queryStatus :: .setVolume (max 0 (st.volume - 5)) :: tr, r)
      | .Other => runUpdateAfter m env
    else runUpdateAfter m env

/-- `Mpd::new` (`impl ConfigBlock for Mpd`).  The struct literal evaluates
`Client::connect(&block_config.ip).unwrap()` first — a connection failure
panics — then validates the format template, whose structural validity
(`FormatTemplate::from_string`, defined in `src/util.rs`, not part of the
shown source) is modelled from the spec as the boolean `fmtOk`; an invalid
template is returned as a `BlockError` through `?`. -/
def Mpd.new (cfg : MpdConfig) (id : String) (connectRes : Except Unit Unit)
    (fmtOk : Bool) : Except Panicked (Except BlockError Mpd) :=
  match connectRes with
  | .error _ => .error .unwrapFailed
  | .ok _ =>
    if fmtOk then
      .ok (.ok { text := "Mpd", id := id, update_interval := cfg.interval,
                 ip := cfg.ip, format := cfg.format })
    else
      .ok (.error .mk)

/-! ## Auxiliary views and spec-side definitions -/

/-- The display text after one update, `none` when that update panics. -/
def updateText (m : Mpd) (env : Env) : Option String :=
  match (m.update env).2 with
  | .ok (m', _) => some m'.text
  | .error _ => none

/-- Spec-side rendering of the four flag fields: the flag characters in the
fixed order repeat, random, single, consume, each present iff its boolean is
true. -/
def flagsOrderedSpec (r z s c : Bool) : String :=
  String.join (([("R", r), ("Z", z), ("S", s), ("C", c)].filter fun p => p.2).map
    fun p => p.1)

/-- Spec-side seconds padding: `d % 60` zero-padded to two digits. -/
def pad2Spec (n : Nat) : String :=
  if n < 10 then "0" ++ Nat.repr n else Nat.repr n

/-- The transport action a button maps to (`none` for the wheel and other
buttons). -/
def transportAct : MouseButton → Option Act
  | .Left => some .prev
  | .Middle => some .togglePause
  | .Right => some .next
  | _ => none

/-- The environment's result for a button's transport command. -/
def transportRes (env : ClickEnv) : MouseButton → Except Unit Unit
  | .Left => env.prevRes
  | .Middle => env.toggleRes
  | .Right => env.nextRes
  | _ => .ok ()

/-! ## Concrete fixtures -/

/-- A paused status with no elapsed time. -/
def stPause : Status :=
  { repeat_ := false, random := false, single := false, consume := false,
    state := .Pause, elapsed := none, volume := 50 }

/-- A paused status carrying the four flag booleans. -/
def stFlags (r z s c : Bool) : Status :=
  { repeat_ := r, random := z, single := s, consume := c,
    state := .Pause, elapsed := none, volume := 0 }

/-- A song titled "Y" by artist "X". -/
def songXY : Song :=
  { title := some "Y", file := "f.mp3", tags := [("Artist", "X")], duration := none }

/-- A freshly constructed widget with the default configuration. -/
def mpd0 : Mpd :=
  { text := "Mpd", id := "id0", update_interval := 1,
    ip := MpdConfig.default_ip, format := MpdConfig.default_format }

/-- Status probe fails, the reconnect attempt succeeds. -/
def envReconnectOk : Env :=
  { status0 := .error (), reconnect := .ok (), songs := fun _ => .error () }

/-- Status probe fails, the reconnect attempt fails too. -/
def envReconnectFail : Env :=
  { status0 := .error (), reconnect := .error (), songs := fun _ => .error () }

/-- Status probe succeeds but every `currentsong()` call fails. -/
def envSongFail : Env :=
  { status0 := .ok stPause, reconnect := .ok (), songs := fun _ => .error () }

/-- Every remote query succeeds. -/
def envAllOk : Env :=
  { status0 := .ok stPause, reconnect := .ok (), songs := fun _ => .ok (some songXY) }

/-- Update environment with the given flag booleans, all queries succeeding. -/
def env8 (r z s c : Bool) : Env :=
  { status0 := .ok (stFlags r z s c), reconnect := .ok (),
    songs := fun _ => .ok (some songXY) }

/-- Click environment in which every command and query succeeds. -/
def clickEnvAllOk : ClickEnv :=
  { prevRes := .ok (), nextRes := .ok (), toggleRes := .ok (),
    statusRes := .ok stPause, setVolumeRes := .ok (), updateEnv := envAllOk }

/-- Click environment in which the `prev()` command fails. -/
def clickEnvPrevFail : ClickEnv :=
  { prevRes := .error (), nextRes := .ok (), toggleRes := .ok (),
    statusRes := .ok stPause, setVolumeRes := .ok (), updateEnv := envAllOk }

/-- Click environment in which the wheel branches' `status()` query fails. -/
def clickEnvStatusFail : ClickEnv :=
  { prevRes := .ok (), nextRes := .ok (), toggleRes := .ok (),
    statusRes := .error (), setVolumeRes := .ok (), updateEnv := envAllOk }

/-- Click environment whose trailing update cycle hits a failed probe and a
failed reconnect. -/
def clickEnvRecFail : ClickEnv :=
  { prevRes := .ok (), nextRes := .ok (), toggleRes := .ok (),
    statusRes := .ok stPause, setVolumeRes := .ok (), updateEnv := envReconnectFail }

/-- A playing status with a current volume of 98. -/
def stVol98 : Status :=
  { repeat_ := false, random := false, single := false, consume := false,
    state := .Play, elapsed := some 65, volume := 98 }

/-- Click environment whose wheel-branch `status()` query reports volume 98. -/
def clickEnvVol98 : ClickEnv :=
  { prevRes := .ok (), nextRes := .ok (), toggleRes := .ok (),
    statusRes := .ok stVol98, setVolumeRes := .ok (), updateEnv := envAllOk }

/-- First song of the mixed-track scenario: titled "A1", no artist tag. -/
def songA : Song :=
  { title := some "A1", file := "a.mp3", tags := [], duration := some 100 }

/-- Second song of the mixed-track scenario: artist tag "B2". -/
def songB : Song :=
  { title := some "B", file := "b.mp3", tags := [("Artist", "B2")], duration := some 200 }

/-- Third song of the mixed-track scenario: 185 seconds long. -/
def songC : Song :=
  { title := some "C", file := "c.mp3", tags := [("Artist", "C3")], duration := some 185 }

/-- Update environment whose three successive `currentsong()` calls return
three different tracks. -/
def envMixed : Env :=
  { status0 := .ok stVol98, reconnect := .ok (),
    songs := fun n => .ok (if n = 0 then some songA else if n = 1 then some songB
      else some songC) }

/-- The default configuration record. -/
def mpdConfigDefault : MpdConfig :=
  { interval := MpdConfig.default_interval, format := MpdConfig.default_format,
    ip := MpdConfig.default_ip, color_overrides := MpdConfig.default_color_overrides }

/-! ## Helper lemmas -/

/-- `runUpdateAfter` preserves the update's action trace. -/
lemma runUpdateAfter_fst (m : Mpd) (env : ClickEnv) :
    (runUpdateAfter m env).1 = (m.update env.updateEnv).1 := by
  unfold runUpdateAfter
  rcases m.update env.updateEnv with ⟨tr, r⟩
  rcases r with p | p
  · rfl
  · rfl

/-- An update cycle never issues a transport or volume command. -/
lemma update_no_transport (m : Mpd) (env : Env) :
    ∀ a ∈ (m.update env).1,
      a ≠ .prev ∧ a ≠ .next ∧ a ≠ .togglePause ∧ ∀ v, a ≠ .setVolume v := by
  intro a ha
  unfold Mpd.update at ha
  rcases h0 : env.status0 with _ | st <;> rw [h0] at ha
  · rcases h1 : env.reconnect with _ | _ <;> rw [h1] at ha <;> fin_cases ha <;> simp
  · rcases h1 : env.songs 0 with _ | s0 <;> rw [h1] at ha
    · fin_cases ha <;> simp
    · rcases h2 : env.songs 1 with _ | s1 <;> rw [h2] at ha
      · fin_cases ha <;> simp
      · rcases h3 : env.songs 2 with _ | s2 <;> rw [h3] at ha <;> fin_cases ha <;> simp

/-- The Rust `{:02}` padding agrees with the spec's two-digit zero padding on
every value a seconds field can take. -/
lemma natPad2_eq_pad2Spec : ∀ n : Fin 60, natPad2 n.val = pad2Spec n.val := by decide

/-! ## Claim C1 -/

/-- C1 (counterexample): when the status probe fails but the in-cycle
reconnect succeeds, the update call does NOT set the display text to the
reconnecting placeholder — no `setText` action occurs and the widget state
is returned unchanged — refuting the claim that the placeholder is set
regardless of the reconnect outcome. -/
theorem c1_counterexample :
    Mpd.update mpd0 envReconnectOk
      = ([.queryStatus, .closeConn, .connectAttempt, .setConn], .ok (mpd0, 1))
    ∧ mpd0.text = "Mpd"
    ∧ ∀ s, Act.setText s ∉ (Mpd.update mpd0 envReconnectOk).1 := by
  refine ⟨rfl, rfl, ?_⟩
  intro s
  show Act.setText s ∉ [.queryStatus, .closeConn, .connectAttempt, .setConn]
  simp

/-- C1 (amended): whenever the status probe at the start of an update cycle
fails, that update call performs no track-field derivation (no
`currentsong()` query is issued) and returns the update interval; the
display text is set to the fixed reconnecting placeholder only when the
in-cycle reconnect attempt also fails, and is left unchanged when the
reconnect succeeds. -/
theorem c1_probe_failure_behavior (m : Mpd) (env : Env)
    (h : env.status0 = .error ()) :
    (∀ n, Act.querySong n ∉ (m.update env).1)
    ∧ (env.reconnect = .ok () →
        m.update env = ([.queryStatus, .closeConn, .connectAttempt, .setConn],
          .ok (m, m.update_interval)))
    ∧ (env.reconnect = .error () →
        m.update env
          = ([.queryStatus, .closeConn, .connectAttempt, .setText "reconnecting..."],
             .ok ({ m with text := "reconnecting..." }, m.update_interval))) := by
  refine ⟨?_, ?_, ?_⟩
  · intro n hn
    rcases hr : env.reconnect with _ | _ <;> simp [Mpd.update, h, hr] at hn
  · intro hr
    simp [Mpd.update, h, hr]
  · intro hr
    simp [Mpd.update, h, hr]

/-- C1 (witness): the amended theorem applied to the concrete widget and the
environment whose reconnect attempt fails. -/
theorem c1_witness :
    envReconnectFail.status0 = .error ()
    ∧ ((∀ n, Act.querySong n ∉ (mpd0.update envReconnectFail).1)
       ∧ (envReconnectFail.reconnect = .ok () →
           mpd0.update envReconnectFail
             = ([.queryStatus, .closeConn, .connectAttempt, .setConn],
                .ok (mpd0, mpd0.update_interval)))
       ∧ (envReconnectFail.reconnect = .error () →
           mpd0.update envReconnectFail
             = ([.queryStatus, .closeConn, .connectAttempt, .setText "reconnecting..."],
                .ok ({ mpd0 with text := "reconnecting..." }, mpd0.update_interval)))) :=
  ⟨rfl, c1_probe_failure_behavior mpd0 envReconnectFail rfl⟩

/-! ## Claim C2 -/

/-- C2: the code violates the no-crash contract — when the status probe
succeeds but a `currentsong()` query fails during rendering, and when the
wheel branches' `status()` query fails during event handling, the
`.unwrap()` calls panic and abort the process instead of degrading the
displayed text. -/
theorem c2_unwrap_panics :
    (Mpd.update mpd0 envSongFail).2 = .error .unwrapFailed
    ∧ (Mpd.click mpd0 clickEnvStatusFail
        { name := some mpd0.id, button := .WheelUp }).2 = .error .unwrapFailed :=
  ⟨rfl, rfl⟩

/-! ## Claim C5 -/

/-- C5: the code violates the claim — when the initial connection cannot be
established at construction time, `Mpd::new` panics (the
`Client::connect(..).unwrap()` aborts the process); it never surfaces the
failure as an error result to the caller. -/
theorem c5_connect_failure_panics :
    Mpd.new mpdConfigDefault "id0" (.error ()) true = .error .unwrapFailed
    ∧ ∀ r, Mpd.new mpdConfigDefault "id0" (.error ()) true ≠ .ok r := by
  refine ⟨rfl, ?_⟩
  intro r h
  simp [Mpd.new] at h

/-! ## Claim C3 -/

/-- C3 (counterexample): a left click on the widget whose `prev()` command
fails returns the error immediately — the trace is just the failed command,
with no status query and no text update, so no render pass is triggered —
refuting the claim that a render pass runs regardless of command outcome. -/
theorem c3_counterexample :
    Mpd.click mpd0 clickEnvPrevFail { name := some mpd0.id, button := .Left }
      = ([.prev], .ok (.error .mk))
    ∧ Act.queryStatus
        ∉ (Mpd.click mpd0 clickEnvPrevFail { name := some mpd0.id, button := .Left }).1
    ∧ ∀ s, Act.setText s
        ∉ (Mpd.click mpd0 clickEnvPrevFail { name := some mpd0.id, button := .Left }).1 := by
  refine ⟨rfl, ?_, ?_⟩
  · show Act.queryStatus ∉ [Act.prev]
    simp
  · intro s
    show Act.setText s ∉ [Act.prev]
    simp

/-- C3 (amended): for a click event matching the widget's id that maps to a
command, a render pass (update) is triggered immediately after the command
only when the command succeeds; when the command fails, the handler returns
the error before `update` runs, so no render pass happens for that event. -/
theorem c3_render_gated_on_command (m : Mpd) (env : ClickEnv) :
    (∀ b a, transportAct b = some a →
      (transportRes env b = .ok () →
        Mpd.click m env { name := some m.id, button := b }
          = (a :: (runUpdateAfter m env).1, (runUpdateAfter m env).2))
      ∧ (transportRes env b = .error () →
        Mpd.click m env { name := some m.id, button := b } = ([a], .ok (.error .mk))))
    ∧ (∀ st, env.statusRes = .ok st →
      (env.setVolumeRes = .ok () →
        Mpd.click m env { name := some m.id, button := .WheelUp }
          = (.queryStatus :: .setVolume (min 100 (st.volume + 5))
               :: (runUpdateAfter m env).1, (runUpdateAfter m env).2)
        ∧ Mpd.click m env { name := some m.id, button := .WheelDown }
          = (.queryStatus :: .setVolume (max 0 (st.volume - 5))
               :: (runUpdateAfter m env).1, (runUpdateAfter m env).2))
      ∧ (env.setVolumeRes = .error () →
        Mpd.click m env { name := some m.id, button := .WheelUp }
          = ([.queryStatus, .setVolume (min 100 (st.volume + 5))], .ok (.error .mk))
        ∧ Mpd.click m env { name := some m.id, button := .WheelDown }
          = ([.queryStatus, .setVolume (max 0 (st.volume - 5))], .ok (.error .mk)))) := by
  constructor
  · intro b a hb
    cases b <;> simp only [transportAct, Option.some.injEq, reduceCtorEq] at hb <;> subst hb
    · constructor <;> intro hr <;> simp only [transportRes] at hr <;>
        rcases hru : runUpdateAfter m env with ⟨tr, r⟩ <;>
        simp [Mpd.click, hr, hru]
    · constructor <;> intro hr <;> simp only [transportRes] at hr <;>
        rcases hru : runUpdateAfter m env with ⟨tr, r⟩ <;>
        simp [Mpd.click, hr, hru]
    · constructor <;> intro hr <;> simp only [transportRes] at hr <;>
        rcases hru : runUpdateAfter m env with ⟨tr, r⟩ <;>
        simp [Mpd.click, hr, hru]
  · intro st hst
    constructor <;> intro hv <;> constructor <;>
      rcases hru : runUpdateAfter m env with ⟨tr, r⟩ <;>
      simp [Mpd.click, hst, hv, hru]

/-- C3 (witness): the amended theorem applied to a successful and to a
failing `prev()` command on the concrete widget. -/
theorem c3_witness :
    Mpd.click mpd0 clickEnvAllOk { name := some mpd0.id, button := .Left }
      = (.prev :: (runUpdateAfter mpd0 clickEnvAllOk).1,
         (runUpdateAfter mpd0 clickEnvAllOk).2)
    ∧ Mpd.click mpd0 clickEnvPrevFail { name := some mpd0.id, button := .Left }
      = ([.prev], .ok (.error .mk)) :=
  ⟨((c3_render_gated_on_command mpd0 clickEnvAllOk).1 .Left .prev rfl).1 rfl,
   ((c3_render_gated_on_command mpd0 clickEnvPrevFail).1 .Left .prev rfl).2 rfl⟩

/-! ## Claim C4 -/

/-- C4 (counterexample): a click whose target name differs from the widget's
id still runs a full update pass, which can change the display text — here
the trailing update hits a failed probe and failed reconnect, so the text
changes from "Mpd" to "reconnecting..." — refuting the claim that the
widget state is left unchanged. -/
theorem c4_counterexample :
    (Mpd.click mpd0 clickEnvRecFail { name := some "other", button := .Left }).2
      = .ok (.ok { mpd0 with text := "reconnecting..." })
    ∧ mpd0.text = "Mpd"
    ∧ ("reconnecting..." : String) ≠ "Mpd" := by
  refine ⟨rfl, rfl, ?_⟩
  decide

/-- C4 (amended): for a click event whose target name differs from the
widget's id, no transport or volume command is issued, but the handler
still runs a render pass (`update`), whose effects on the widget are those
of a normal update cycle. -/
theorem c4_nonmatching_click (m : Mpd) (env : ClickEnv) (nm : String)
    (b : MouseButton) (h : nm ≠ m.id) :
    Mpd.click m env { name := some nm, button := b } = runUpdateAfter m env
    ∧ ∀ a ∈ (Mpd.click m env { name := some nm, button := b }).1,
        a ≠ .prev ∧ a ≠ .next ∧ a ≠ .togglePause ∧ ∀ v, a ≠ .setVolume v := by
  have heq : Mpd.click m env { name := some nm, button := b } = runUpdateAfter m env := by
    simp [Mpd.click, h]
  refine ⟨heq, ?_⟩
  intro a ha
  rw [heq, runUpdateAfter_fst] at ha
  exact update_no_transport m env.updateEnv a ha

/-- C4 (witness): the amended theorem applied to the concrete widget and a
click targeted at a different widget id. -/
theorem c4_witness :
    ("other" : String) ≠ mpd0.id
    ∧ (Mpd.click mpd0 clickEnvRecFail { name := some "other", button := .Left }
        = runUpdateAfter mpd0 clickEnvRecFail
      ∧ ∀ a ∈ (Mpd.click mpd0 clickEnvRecFail
                 { name := some "other", button := .Left }).1,
          a ≠ .prev ∧ a ≠ .next ∧ a ≠ .togglePause ∧ ∀ v, a ≠ .setVolume v) :=
  ⟨by decide, c4_nonmatching_click mpd0 clickEnvRecFail "other" .Left (by decide)⟩

/-! ## Claim C6 -/

/-- C6: a scroll event on this widget first re-queries the current volume
`v` (the trace starts with the fresh status query followed by the volume
command), then commands `min(100, v + 5)` on scroll up and `max(0, v - 5)`
on scroll down; for every starting volume in [0, 100] the commanded volume
also lies in [0, 100]. -/
theorem c6_volume_clamped (m : Mpd) (env : ClickEnv) (st : Status)
    (hst : env.statusRes = .ok st) (h0 : 0 ≤ st.volume) (h1 : st.volume ≤ 100) :
    (Mpd.click m env { name := some m.id, button := .WheelUp }).1.take 2
      = [.queryStatus, .setVolume (min 100 (st.volume + 5))]
    ∧ (Mpd.click m env { name := some m.id, button := .WheelDown }).1.take 2
      = [.queryStatus, .setVolume (max 0 (st.volume - 5))]
    ∧ 0 ≤ min 100 (st.volume + 5) ∧ min 100 (st.volume + 5) ≤ 100
    ∧ 0 ≤ max 0 (st.volume - 5) ∧ max 0 (st.volume - 5) ≤ 100 := by
  refine ⟨?_, ?_, ?_, ?_, ?_, ?_⟩
  · rcases hv : env.setVolumeRes with _ | _ <;>
      rcases hru : runUpdateAfter m env with ⟨tr, r⟩ <;>
      simp [Mpd.click, hst, hv, hru]
  · rcases hv : env.setVolumeRes with _ | _ <;>
      rcases hru : runUpdateAfter m env with ⟨tr, r⟩ <;>
      simp [Mpd.click, hst, hv, hru]
  · exact le_min (by norm_num) (by omega)
  · exact min_le_left _ _
  · exact le_max_left _ _
  · exact max_le (by norm_num) (by omega)

/-- C6 (witness): the theorem applied to the concrete widget with a current
volume of 98 (scroll up commands exactly 100). -/
theorem c6_witness :
    clickEnvVol98.statusRes = .ok stVol98
    ∧ (0 : Int) ≤ stVol98.volume ∧ stVol98.volume ≤ 100
    ∧ ((Mpd.click mpd0 clickEnvVol98 { name := some mpd0.id, button := .WheelUp }).1.take 2
        = [.queryStatus, .setVolume (min 100 (stVol98.volume + 5))]
      ∧ (Mpd.click mpd0 clickEnvVol98 { name := some mpd0.id, button := .WheelDown }).1.take 2
        = [.queryStatus, .setVolume (max 0 (stVol98.volume - 5))]
      ∧ 0 ≤ min 100 (stVol98.volume + 5) ∧ min 100 (stVol98.volume + 5) ≤ 100
      ∧ 0 ≤ max 0 (stVol98.volume - 5) ∧ max 0 (stVol98.volume - 5) ≤ 100) :=
  ⟨rfl, by decide, by decide,
   c6_volume_clamped mpd0 clickEnvVol98 stVol98 rfl (by decide) (by decide)⟩

/-! ## Claim C7 -/

/-- C7: for every duration `d` in whole seconds, the elapsed/length
rendering is the decimal value of `d / 60`, a colon, and `d % 60`
zero-padded to two digits (125 → "2:05", 59 → "0:59", 3600 → "60:00");
when the underlying duration is absent, the field is the empty string. -/
theorem c7_duration_format (d : Nat) :
    formatMinSec d = Nat.repr (d / 60) ++ ":" ++ pad2Spec (d % 60)
    ∧ elapsedOf (some d) = formatMinSec d
    ∧ elapsedOf none = ""
    ∧ lengthOf (some { title := none, file := "f", tags := [], duration := none }) = ""
    ∧ formatMinSec 125 = "2:05"
    ∧ formatMinSec 59 = "0:59"
    ∧ formatMinSec 3600 = "60:00" := by
  refine ⟨?_, rfl, rfl, rfl, by decide, by decide, by decide⟩
  have h : natPad2 (d % 60) = pad2Spec (d % 60) :=
    natPad2_eq_pad2Spec ⟨d % 60, Nat.mod_lt d (by norm_num)⟩
  unfold formatMinSec
  rw [h]

/-! ## Claim C8 -/

/-- C8: each flag field is the single fixed character "R"/"Z"/"S"/"C" when
its boolean is true and the empty string when false, concatenating — as the
default format template does, its placeholders standing in the fixed order
repeat, random, single, consume — to exactly the spec-side ordered flag
string; rendering an update under the default template appends that string
to the rest of the output. -/
theorem c8_flag_rendering (r z s c : Bool) :
    repeatFlag r ++ randomFlag z ++ singleFlag s ++ consumeFlag c = flagsOrderedSpec r z s c
    ∧ MpdConfig.default_format
      = "{artist} - {title} [{playback_info}]" ++ "{repeat}{random}{single}{consume}"
    ∧ updateText mpd0 (env8 r z s c) = some ("X - Y [paused]" ++ flagsOrderedSpec r z s c) := by
  cases r <;> cases z <;> cases s <;> cases c <;> exact ⟨rfl, rfl, rfl⟩

/-! ## Claim C9 -/

/-- C9: on a successful update cycle (status probe succeeds and every
`currentsong()` query returns the same result), the update succeeds,
renders the derived fields, and the field derivation follows the spec's
fallback chains: the title is the track's title, falling back to the file
identifier and then to the empty string; the artist is the "Artist" tag,
falling back to "unknown artist" and then to the empty string; and
`playback_info` is "{elapsed}/{length}" when playing, "paused" when paused,
and "stopped" otherwise. -/
theorem c9_field_derivation (m : Mpd) (env : Env) (st : Status) (song? : Option Song)
    (h : env.status0 = .ok st) (hs : ∀ n, env.songs n = .ok song?) :
    (m.update env).2
      = .ok ({ m with text := renderTemplate m.format (formatVals st song? song? song?) },
             m.update_interval)
    ∧ titleOf song? = (song?.map fun song => song.title.getD song.file).getD ""
    ∧ artistOf song?
      = (song?.map fun song => (lookupTag song.tags "Artist").getD "unknown artist").getD ""
    ∧ playbackOf st.state (elapsedOf st.elapsed) (lengthOf song?)
      = (match st.state with
         | .Play => elapsedOf st.elapsed ++ "/" ++ lengthOf song?
         | .Pause => "paused"
         | .Stop => "stopped") := by
  refine ⟨?_, ?_, ?_, ?_⟩
  · simp [Mpd.update, h, hs 0, hs 1, hs 2]
  · rcases song? with _ | song
    · rfl
    · cases ht : song.title <;> simp [titleOf, ht]
  · rcases song? with _ | song
    · rfl
    · cases ha : lookupTag song.tags "Artist" <;> simp [artistOf, ha]
  · cases st.state <;> rfl

/-- C9 (witness): the theorem applied to the concrete widget with a paused
status and the song "Y" by "X" returned by every query. -/
theorem c9_witness :
    envAllOk.status0 = .ok stPause
    ∧ (∀ n, envAllOk.songs n = .ok (some songXY))
    ∧ ((mpd0.update envAllOk).2
        = .ok ({ mpd0 with
                   text := renderTemplate mpd0.format
                     (formatVals stPause (some songXY) (some songXY) (some songXY)) },
               mpd0.update_interval)
      ∧ titleOf (some songXY)
        = ((some songXY).map fun song => song.title.getD song.file).getD ""
      ∧ artistOf (some songXY)
        = ((some songXY).map
            fun song => (lookupTag song.tags "Artist").getD "unknown artist").getD ""
      ∧ playbackOf stPause.state (elapsedOf stPause.elapsed) (lengthOf (some songXY))
        = (match stPause.state with
           | .Play => elapsedOf stPause.elapsed ++ "/" ++ lengthOf (some songXY)
           | .Pause => "paused"
           | .Stop => "stopped")) :=
  ⟨rfl, fun _ => rfl, c9_field_derivation mpd0 envAllOk stPause (some songXY) rfl fun _ => rfl⟩

/-! ## Claim C10 -/

/-- C10: a successful update cycle fetches the status once and issues the
current-song query three separate times — the first feeding the title, the
second the artist, the third the length (as recorded in `formatVals`) — so
the three fields may describe different tracks when the current song
changes between the queries. -/
theorem c10_three_song_queries (m : Mpd) (env : Env) (st : Status)
    (s0 s1 s2 : Option Song) (h : env.status0 = .ok st) (h0 : env.songs 0 = .ok s0)
    (h1 : env.songs 1 = .ok s1) (h2 : env.songs 2 = .ok s2) :
    m.update env
      = ([.queryStatus, .querySong 0, .querySong 1, .querySong 2,
          .setText (renderTemplate m.format (formatVals st s0 s1 s2))],
         .ok ({ m with text := renderTemplate m.format (formatVals st s0 s1 s2) },
              m.update_interval))
    ∧ ((m.update env).1.filter fun a => a == .queryStatus).length = 1
    ∧ ((m.update env).1.filter
        fun a => match a with | .querySong _ => true | _ => false).length = 3
    ∧ (formatVals st s0 s1 s2).lookup "{title}" = some (titleOf s0)
    ∧ (formatVals st s0 s1 s2).lookup "{artist}" = some (artistOf s1)
    ∧ (formatVals st s0 s1 s2).lookup "{length}" = some (lengthOf s2) := by
  have hupd : m.update env
      = ([.queryStatus, .querySong 0, .querySong 1, .querySong 2,
          .setText (renderTemplate m.format (formatVals st s0 s1 s2))],
         .ok ({ m with text := renderTemplate m.format (formatVals st s0 s1 s2) },
              m.update_interval)) := by
    simp [Mpd.update, h, h0, h1, h2]
  refine ⟨hupd, ?_, ?_, rfl, rfl, rfl⟩
  · rw [hupd]
    rfl
  · rw [hupd]
    rfl

/-- C10 (witness): the theorem applied to an environment whose three
current-song queries return three different tracks, so the rendered title,
artist and length each come from a different track. -/
theorem c10_witness :
    envMixed.status0 = .ok stVol98
    ∧ envMixed.songs 0 = .ok (some songA)
    ∧ envMixed.songs 1 = .ok (some songB)
    ∧ envMixed.songs 2 = .ok (some songC)
    ∧ (mpd0.update envMixed
        = ([.queryStatus, .querySong 0, .querySong 1, .querySong 2,
            .setText (renderTemplate mpd0.format
              (formatVals stVol98 (some songA) (some songB) (some songC)))],
           .ok ({ mpd0 with
                    text := renderTemplate mpd0.format
                      (formatVals stVol98 (some songA) (some songB) (some songC)) },
                mpd0.update_interval))
      ∧ ((mpd0.update envMixed).1.filter fun a => a == .queryStatus).length = 1
      ∧ ((mpd0.update envMixed).1.filter
          fun a => match a with | .querySong _ => true | _ => false).length = 3
      ∧ (formatVals stVol98 (some songA) (some songB) (some songC)).lookup "{title}"
        = some (titleOf (some songA))
      ∧ (formatVals stVol98 (some songA) (some songB) (some songC)).lookup "{artist}"
        = some (artistOf (some songB))
      ∧ (formatVals stVol98 (some songA) (some songB) (some songC)).lookup "{length}"
        = some (lengthOf (some songC)))
    ∧ titleOf (some songA) = "A1"
    ∧ artistOf (some songB) = "B2"
    ∧ lengthOf (some songC) = "3:05" :=
  ⟨rfl, rfl, rfl, rfl,
   c10_three_song_queries mpd0 envMixed stVol98 (some songA) (some songB) (some songC)
     rfl rfl rfl rfl,
   rfl, rfl, by decide⟩
